import Mathlib

/-!
Shallow embedding of the `init` repository (a minimal socket-activation
process supervisor) and proofs about its claims.

Source layout embedded here:
- `src/lib.rs`: `INIT_ENV_FORMAT`, `init_get_fd`, `Worker::run`, `request`
- `src/init/main.rs`: `parse`, `start_service`, `service_spawner`,
  `spawn_service`, `unset_cloexec`, `unset_nonblocking`, `exec`
- `src/serviceA/main.rs`, `src/serviceB/main.rs`, `src/serviceC/main.rs`:
  listener acquisition at startup (inherited fd vs. self-bind vs. unwrap)

Strings handed through the environment are modelled as `List Char`;
file descriptors (`RawFd`, i.e. `i32`) as `Int`; OS results that the code
inspects are inputs to the embedded functions.
-/

/-! ## Decimal rendering and parsing

`exec` in `src/init/main.rs` serializes the descriptor with
`format!("{}", socket)` (Rust `i32` `Display`: optional `-`, then decimal
digits). `init_get_fd` in `src/lib.rs` parses with `value.parse::<i32>()`
(Rust `FromStr for i32`: optional `+`/`-` sign, then at least one ASCII
digit, failing on any other character, emptiness, or overflow of the
`i32` range). -/

/-- ASCII digit character for a digit value, as Rust's integer Display emits. -/
def digitChar (d : Nat) : Char := Char.ofNat (48 + d)

/-- Digit-emitting loop of Rust's integer `Display`: peels off the least
significant digit onto the accumulator until one digit remains. `fuel`
bounds the iteration count (any `fuel > n` is enough, since `n` shrinks
by a factor of ten per step). -/
def toDecChars (fuel n : Nat) (acc : List Char) : List Char :=
  match fuel with
  | 0 => acc
  | fuel + 1 =>
    if n < 10 then digitChar n :: acc
    else toDecChars fuel (n / 10) (digitChar (n % 10) :: acc)

/-- Decimal digit characters of a natural number, most significant first
(the digit string emitted by Rust's `Display` for the magnitude). -/
def natToDecChars (n : Nat) : List Char := toDecChars (n + 1) n []

/-- Rust `format!("{}", n)` for an `i32` value: a `-` sign when negative,
then the decimal digits of the magnitude. -/
def intToDecChars (n : Int) : List Char :=
  if n < 0 then '-' :: natToDecChars n.natAbs else natToDecChars n.natAbs

/-- Numeric value of an ASCII digit character, `none` for any other char. -/
def digitVal (c : Char) : Option Nat :=
  if 48 ≤ c.toNat ∧ c.toNat ≤ 57 then some (c.toNat - 48) else none

/-- Accumulating decimal parse over a list of characters; fails on the
first non-digit character. -/
def parseDigitsAux : List Char → Nat → Option Nat
  | [], acc => some acc
  | c :: cs, acc =>
    match digitVal c with
    | some d => parseDigitsAux cs (acc * 10 + d)
    | none => none

/-- Parse a non-empty all-digit character list to its value; an empty
digit sequence is a parse error (as in Rust's `from_str_radix`). -/
def parseNatDigits : List Char → Option Nat
  | [] => none
  | c :: cs => parseDigitsAux (c :: cs) 0

/-- Rust `str::parse::<i32>()`: optional sign, non-empty digit run,
result within the `i32` range (`-2147483648 ..= 2147483647`).
Rust checks overflow during accumulation; since appending digits only
grows the magnitude, that is extensionally the final range check used
here. -/
def parseI32 : List Char → Option Int
  | [] => none
  | c :: cs =>
    if c = '-' then
      (parseNatDigits cs).bind fun m =>
        if m ≤ 2147483648 then some (-(m : Int)) else none
    else if c = '+' then
      (parseNatDigits cs).bind fun m =>
        if m ≤ 2147483647 then some ((m : Int)) else none
    else
      (parseNatDigits (c :: cs)).bind fun m =>
        if m ≤ 2147483647 then some ((m : Int)) else none

/-! ## `src/lib.rs` -/

/-- The reserved environment-variable name (`INIT_ENV_FORMAT` in `lib.rs`). -/
def INIT_ENV_FORMAT : String := "INIT_FD"

/-- Function `init_get_fd` from `src/lib.rs`: reads the reserved
environment variable (modelled as `Option (List Char)`: `none` when
absent) and parses it as an `i32`; `Err` on absence or parse failure.
The function body is
`match env::var(INIT_ENV_FORMAT) { Ok(v) => v.parse::<i32>().or(Err(Error())), Err(_) => Err(Error()) }`. -/
def init_get_fd (envVar : Option (List Char)) : Except Unit Int :=
  match envVar with
  | some value =>
    match parseI32 value with
    | some n => Except.ok n
    | none => Except.error ()
  | none => Except.error ()

/-- Function `init_get_fd` with the environment state threaded through:
the source contains no `env::remove_var` call (despite the doc comment on
the function), so the variable's value after the call is exactly the
value before it. -/
def init_get_fd_env (envVar : Option (List Char)) :
    Except Unit Int × Option (List Char) :=
  (init_get_fd envVar, envVar)

/-! ## Worker (from `src/lib.rs`)

A `Worker` holds a service name and a connected stream and runs a
read/callback/write loop. The stream's behaviour is modelled as a script:
one `WStep` per loop iteration, giving the result of the `read` call and
(when a write is attempted) the result of the `write` call. -/

/-- Result of one `self.stream.read(&mut buf)` call: `ok n` bytes read,
or an I/O error. -/
inductive RdRes
  | ok (n : Nat)
  | err
deriving DecidableEq

/-- One scripted loop iteration: the read result, and the result of the
`write` call should one be attempted (`some k` = `Ok(k)` with `k` bytes
actually written, `none` = `Err`). -/
structure WStep where
  rd : RdRes
  wr : Option Nat
deriving DecidableEq

/-- Why `Worker::run`'s loop returned. -/
inductive Cause
  | zeroRead
  | readErr
  | writeErr
deriving DecidableEq

/-- Observable outcome of `Worker::run` on a script: how many times the
caller-supplied closure `f` was invoked, the replies passed to `write`
(in order), and the loop's termination cause (`none` when the script was
exhausted with the loop still running). -/
structure RunResult where
  calls : Nat
  writes : List String
  cause : Option Cause
deriving DecidableEq

/-- Reply text written after each non-empty payload:
`format!("Answer from {}", self.service)`. -/
def replyFor (service : String) : String := "Answer from " ++ service

/-- Method `Worker::run` from `src/lib.rs`, over a scripted stream. Per
iteration: `Ok(0)` returns (peer closed); `Err` logs and returns;
`Ok(n)` with `n > 0` logs the payload, invokes `f()` once, then writes
the reply — a failed write logs and returns, a successful write (of any
byte count, unchecked) continues with the next read. -/
def workerRun (service : String) : List WStep → RunResult
  | [] => ⟨0, [], none⟩
  | step :: rest =>
    match step.rd with
    | .err => ⟨0, [], some .readErr⟩
    | .ok 0 => ⟨0, [], some .zeroRead⟩
    | .ok (_ + 1) =>
      match step.wr with
      | some _ =>
        let r := workerRun service rest
        ⟨r.calls + 1, replyFor service :: r.writes, r.cause⟩
      | none => ⟨1, [replyFor service], some .writeErr⟩

/-- A script step on which the loop keeps running: non-empty read and a
write call that returned `Ok` (whatever the byte count). -/
def goodStep (s : WStep) : Bool :=
  (match s.rd with | .ok (_ + 1) => true | _ => false) && s.wr.isSome

/-! ## Service registry (from `src/init/main.rs`)

`SERVICE_MAP` is a `BTreeMap<&str, &str>` populated once by `parse` and
then only read. The map is embedded as an association list with
`BTreeMap`-style insert (replace on an existing key) and get. -/

/-- Map insert: replaces the value when the key is present, appends
otherwise (`BTreeMap::insert` semantics for lookup purposes). -/
def mapInsert (m : List (String × String)) (k v : String) :
    List (String × String) :=
  match m with
  | [] => [(k, v)]
  | (k', v') :: rest =>
    if k = k' then (k, v) :: rest else (k', v') :: mapInsert rest k v

/-- Map lookup, `BTreeMap::get`. -/
def mapGet (m : List (String × String)) (k : String) : Option String :=
  match m with
  | [] => none
  | (k', v') :: rest => if k = k' then some v' else mapGet rest k

/-- Function `parse` from `src/init/main.rs`: the single population phase.
Inserts the three compiled-in services into the empty map. -/
def parse : List (String × String) :=
  mapInsert
    (mapInsert
      (mapInsert [] "serviceA" "service_a_socket")
      "serviceB" "service_b_socket")
    "serviceC" "service_c_socket"

/-- Outcome of `start_service`: `aborted` models the `unwrap()` panics
(unknown-service lookup, or connect failure). -/
inductive StartOutcome
  | aborted
  | connected (socket : String)
deriving DecidableEq

/-- Function `start_service` from `src/init/main.rs`:
`service_map.get(service).unwrap()` then
`UnixStream::connect(socket).unwrap()`. `connectOk` is the OS's answer
to the connect call. -/
def start_service (m : List (String × String)) (service : String)
    (connectOk : Bool) : StartOutcome :=
  match mapGet m service with
  | none => .aborted
  | some socket => if connectOk then .connected socket else .aborted

/-! ## Activation watcher (from `src/init/main.rs`)

`service_spawner` registers the listener once with a `mio::Poll`, polls
once with no timeout, and for each returned event spawns the service if
the token is `LISTENER` (any other token is `unreachable!`). The poll's
returned events are an input: a list of tokens. -/

/-- Token under which the single listener registration is made
(`const LISTENER: Token = Token(0)`). -/
def LISTENER : Nat := 0

/-- Observable actions of the watcher task. -/
inductive WatchAction
  | register
  | pollWait
  | spawnSvc (service : String)
  | abortUnreachable
deriving DecidableEq

/-- Event-loop body of `service_spawner`: `for event in events.iter()`,
spawning on `LISTENER` and hitting `unreachable!` on any other token. -/
def handleEvents (service : String) : List Nat → List WatchAction
  | [] => []
  | t :: rest =>
    if t = LISTENER then .spawnSvc service :: handleEvents service rest
    else [.abortUnreachable]

/-- Function `service_spawner` from `src/init/main.rs` as an action trace:
one registration, one blocking poll, then the event loop; the function
then returns (the hosting task ends — no re-arm, no second poll). -/
def service_spawner (service : String) (events : List Nat) :
    List WatchAction :=
  .register :: .pollWait :: handleEvents service events

/-! ## Descriptor-flag manipulation and spawn path (from `src/init/main.rs`) -/

/-- Flag bit `FD_CLOEXEC` (value 1). -/
def FD_CLOEXEC : Nat := 1

/-- Bit pattern of `!FD_CLOEXEC` on a 32-bit `c_int`: all bits set except
the `FD_CLOEXEC` bit. -/
def notFdCloexec32 : Nat := 2 ^ 32 - 1 - FD_CLOEXEC

/-- New flag word computed by `unset_cloexec`:
`flags & !libc::FD_CLOEXEC`. -/
def clearCloexec (flags : Nat) : Nat := flags &&& notFdCloexec32

/-- Result of `libc::fork()` as seen by the calling code: `-1`, `0`
(child), or a positive pid (parent). -/
inductive ForkRes
  | failed
  | inChild
  | inParent (pid : Nat)
deriving DecidableEq

/-- The OS's answers to the calls made on the spawn path.
`getfdFlags = none` models `fcntl(fd, F_GETFD)` returning `-1`;
`setfdOk`, `ioctlOk`, `execOk` tell whether `fcntl(F_SETFD)`,
`ioctl(FIONBIO)` and `execvp` succeed. -/
structure OsEnv where
  forkRes : ForkRes
  getfdFlags : Option Nat
  setfdOk : Bool
  ioctlOk : Bool
  execOk : Bool
deriving DecidableEq

/-- Observable actions on the spawn path. -/
inductive Act
  | fcntlGetfd (fd : Int)
  | fcntlSetfd (fd : Int) (flags : Nat)
  | assertFail
  | ioctlFionbio (fd : Int) (nonblocking : Nat)
  | setEnvVar (name : String) (value : List Char)
  | execveCall (path : String) (argv : List (Option String))
  | panicFork
  | panicExec
  | parentReturn
deriving DecidableEq

/-- Function `unset_cloexec` from `src/init/main.rs` as an action trace:
read the flags with `fcntl(F_GETFD)` and `assert_ne!(flags, -1)`; then
write back `flags & !FD_CLOEXEC` with `fcntl(F_SETFD)` and assert its
result is not `-1` either. -/
def unset_cloexec_trace (getfdFlags : Option Nat) (setfdOk : Bool)
    (fd : Int) : List Act :=
  match getfdFlags with
  | none => [.fcntlGetfd fd, .assertFail]
  | some flags =>
    [.fcntlGetfd fd, .fcntlSetfd fd (clearCloexec flags)] ++
      (if setfdOk then [] else [.assertFail])

/-- Function `unset_nonblocking` from `src/init/main.rs` as an action
trace: a single `ioctl(fd, FIONBIO, &mut 0)` whose return value the
source discards — the trace is the same whether the call succeeds or
fails. -/
def unset_nonblocking_trace (fd : Int) : List Act :=
  [.ioctlFionbio fd 0]

/-- Serialized value `exec` stores in the environment:
`format!("{}", socket)`. -/
def execEnvValue (socket : Int) : List Char := intToDecChars socket

/-- Program path `exec` resolves: `"target/debug/".to_string() + service`. -/
def progPath (service : String) : String := "target/debug/" ++ service

/-- Function `exec` from `src/init/main.rs` as an action trace: set the
reserved environment variable to the descriptor's decimal string, then
`execvp` the service binary with `argv = [program, NULL]`; on `execvp`
returning, `unreachable!` panics. -/
def exec_trace (execOk : Bool) (service : String) (socket : Int) :
    List Act :=
  [.setEnvVar INIT_ENV_FORMAT (execEnvValue socket),
   .execveCall (progPath service) [some (progPath service), none]] ++
    (if execOk then [] else [.panicExec])

/-- Sequencing of trace fragments that stops after a failed assert. -/
def seqAbort (t1 t2 : List Act) : List Act :=
  if Act.assertFail ∈ t1 then t1 else t1 ++ t2

/-- Function `spawn_service` from `src/init/main.rs` as an action trace:
fork; `-1` panics; in the child run `unset_cloexec`, `unset_nonblocking`,
`exec` in that order; in the parent return immediately (no wait). -/
def spawn_service_trace (env : OsEnv) (service : String) (socket : Int) :
    List Act :=
  match env.forkRes with
  | .failed => [.panicFork]
  | .inParent _ => [.parentReturn]
  | .inChild =>
    seqAbort (unset_cloexec_trace env.getfdFlags env.setfdOk socket)
      (unset_nonblocking_trace socket ++ exec_trace env.execOk service socket)

/-! ## Service startup (from `src/serviceA,B,C/main.rs`)

How each service obtains its listener at startup, as a function of the
reserved environment variable's value. -/

/-- Where a service's listening socket comes from; `panicked` models an
`unwrap()` on the `Err` arm. -/
inductive ListenerSource
  | inherited (fd : Int)
  | selfBound (path : String)
  | panicked
deriving DecidableEq

/-- Startup of `serviceA` (`src/serviceA/main.rs`): match on
`init_get_fd()` — `Ok` wraps the inherited descriptor, `Err` falls back
to `UnixListener::bind(SOCKET)`. -/
def serviceA_listener (envVar : Option (List Char)) : ListenerSource :=
  match init_get_fd envVar with
  | .ok raw_fd => .inherited raw_fd
  | .error _ => .selfBound "service_a_socket"

/-- Startup of `serviceB` (`src/serviceB/main.rs`):
`UnixListener::from_raw_fd(init::init_get_fd().unwrap())` — `Err`
panics, there is no self-bind fallback (it is commented out). -/
def serviceB_listener (envVar : Option (List Char)) : ListenerSource :=
  match init_get_fd envVar with
  | .ok raw_fd => .inherited raw_fd
  | .error _ => .panicked

/-- Startup of `serviceC` (`src/serviceC/main.rs`): same shape as
`serviceB` — `unwrap()` on `Err`, no fallback. -/
def serviceC_listener (envVar : Option (List Char)) : ListenerSource :=
  match init_get_fd envVar with
  | .ok raw_fd => .inherited raw_fd
  | .error _ => .panicked

/-! ## Helper lemmas: decimal round trip -/

theorem digitVal_digitChar (d : Nat) (h : d < 10) :
    digitVal (digitChar d) = some d := by
  interval_cases d <;> decide

theorem digitChar_ne_sign (d : Nat) (h : d < 10) :
    digitChar d ≠ '-' ∧ digitChar d ≠ '+' := by
  interval_cases d <;> exact ⟨by decide, by decide⟩

theorem parseDigitsAux_append (xs : List Char) : ∀ ys acc,
    parseDigitsAux (xs ++ ys) acc =
      (parseDigitsAux xs acc).bind fun a => parseDigitsAux ys a := by
  induction xs with
  | nil => intro ys acc; simp [parseDigitsAux]
  | cons c cs ih =>
    intro ys acc
    cases hd : digitVal c with
    | none => simp [parseDigitsAux, hd]
    | some d => simp [parseDigitsAux, hd, ih]

theorem toDecChars_acc (fuel : Nat) : ∀ n rest,
    toDecChars fuel n rest = toDecChars fuel n [] ++ rest := by
  induction fuel with
  | zero => intro n rest; simp [toDecChars]
  | succ fuel ih =>
    intro n rest
    by_cases h : n < 10
    · simp [toDecChars, h]
    · simp only [toDecChars, if_neg h]
      rw [ih (n / 10) (digitChar (n % 10) :: rest),
        ih (n / 10) [digitChar (n % 10)]]
      simp

theorem parse_toDecChars (fuel : Nat) : ∀ n, n < fuel → ∀ acc,
    parseDigitsAux (toDecChars fuel n []) acc =
      some (acc * 10 ^ (toDecChars fuel n []).length + n) := by
  induction fuel with
  | zero => intro n h; exact absurd h (Nat.not_lt_zero n)
  | succ fuel ih =>
    intro n h acc
    by_cases h10 : n < 10
    · simp [toDecChars, h10, parseDigitsAux, digitVal_digitChar n h10]
    · have hrec : n / 10 < fuel := by omega
      have hstep : toDecChars (fuel + 1) n [] =
          toDecChars fuel (n / 10) [] ++ [digitChar (n % 10)] := by
        simp only [toDecChars, if_neg h10]
        exact toDecChars_acc fuel (n / 10) [digitChar (n % 10)]
      rw [hstep, parseDigitsAux_append, ih (n / 10) hrec acc]
      simp only [Option.some_bind, parseDigitsAux,
        digitVal_digitChar (n % 10) (by omega), List.length_append,
        List.length_singleton]
      congr 1
      calc (acc * 10 ^ (toDecChars fuel (n / 10) []).length + n / 10) * 10
            + n % 10
          = acc * 10 ^ ((toDecChars fuel (n / 10) []).length + 1)
            + (10 * (n / 10) + n % 10) := by ring
        _ = acc * 10 ^ ((toDecChars fuel (n / 10) []).length + 1) + n := by
            rw [Nat.div_add_mod]

theorem toDecChars_head (fuel : Nat) : ∀ n, n < fuel →
    ∃ d cs, toDecChars fuel n [] = digitChar d :: cs ∧ d < 10 := by
  induction fuel with
  | zero => intro n h; exact absurd h (Nat.not_lt_zero n)
  | succ fuel ih =>
    intro n h
    by_cases h10 : n < 10
    · exact ⟨n, [], by simp [toDecChars, h10], h10⟩
    · obtain ⟨d, cs, hcs, hd⟩ := ih (n / 10) (by omega)
      refine ⟨d, cs ++ [digitChar (n % 10)], ?_, hd⟩
      simp only [toDecChars, if_neg h10]
      rw [toDecChars_acc fuel (n / 10) [digitChar (n % 10)], hcs]
      simp

theorem parseNatDigits_natToDecChars (n : Nat) :
    parseNatDigits (natToDecChars n) = some n := by
  obtain ⟨d, cs, hcs, _⟩ := toDecChars_head (n + 1) n (Nat.lt_succ_self n)
  unfold natToDecChars
  rw [hcs]
  show parseDigitsAux (digitChar d :: cs) 0 = some n
  rw [← hcs, parse_toDecChars (n + 1) n (Nat.lt_succ_self n) 0]
  simp

theorem parseI32_natToDecChars (n : Nat) (h : n ≤ 2147483647) :
    parseI32 (natToDecChars n) = some (n : Int) := by
  obtain ⟨d, cs, hcs, hd⟩ := toDecChars_head (n + 1) n (Nat.lt_succ_self n)
  have hne := digitChar_ne_sign d hd
  have hparse : parseNatDigits (natToDecChars n) = some n :=
    parseNatDigits_natToDecChars n
  unfold natToDecChars at hparse ⊢
  rw [hcs] at hparse ⊢
  simp [parseI32, hne.1, hne.2, hparse, h]

/-! ## Claim theorems -/

/-- C3: round-trip of the descriptor handoff — for every `i32` descriptor
number `n`, serializing `n` into the reserved environment variable as its
decimal string (as `exec` does) and then reading and parsing it (as
`init_get_fd` does) yields `Ok n`, the same number the parent passed. -/
theorem fd_handoff_roundtrip (n : Int) (h1 : -2147483648 ≤ n)
    (h2 : n ≤ 2147483647) :
    init_get_fd (some (execEnvValue n)) = Except.ok n := by
  unfold execEnvValue intToDecChars
  by_cases hneg : n < 0
  · rw [if_pos hneg]
    have hm : n.natAbs ≤ 2147483648 := by omega
    have hparse : parseNatDigits (natToDecChars n.natAbs) = some n.natAbs :=
      parseNatDigits_natToDecChars _
    have hi : parseI32 ('-' :: natToDecChars n.natAbs) =
        some (-(n.natAbs : Int)) := by
      simp [parseI32, hparse, hm]
    have hval : (-(n.natAbs : Int)) = n := by omega
    simp only [init_get_fd, hi]
    exact congrArg Except.ok hval
  · rw [if_neg hneg]
    have hle : n.natAbs ≤ 2147483647 := by omega
    have hi := parseI32_natToDecChars n.natAbs hle
    have hval : ((n.natAbs : Int)) = n := by omega
    simp only [init_get_fd, hi]
    exact congrArg Except.ok hval

/-- Witness for C3 at the concrete descriptor number 5. -/
theorem fd_handoff_roundtrip_witness :
    init_get_fd (some (execEnvValue 5)) = Except.ok 5 :=
  fd_handoff_roundtrip 5 (by norm_num) (by norm_num)

/-- C2 (code bug): at input `INIT_FD = "5"`, `init_get_fd` returns
`Ok 5` yet the environment still holds the variable afterwards — the
source contains no `env::remove_var`, contradicting both the claim and
the function's own doc comment ("Unsets environment variable after
reading it"). -/
theorem init_get_fd_leaves_var_set :
    init_get_fd_env (some ['5']) = (Except.ok 5, some ['5']) ∧
    (init_get_fd_env (some ['5'])).2 ≠ none := by
  exact ⟨rfl, by decide⟩

/-- C1 counterexample: with the reserved environment variable absent,
`serviceB` and `serviceC` panic on the `Err` from `init_get_fd`
(`unwrap()`) instead of falling back to self-binding. -/
theorem serviceB_no_fallback :
    serviceB_listener none = ListenerSource.panicked ∧
    serviceC_listener none = ListenerSource.panicked ∧
    serviceB_listener none ≠ ListenerSource.selfBound "service_b_socket" := by
  refine ⟨rfl, rfl, by decide⟩

/-- C1 (amended): when `init_get_fd` returns `Err`, `serviceA` falls back
to binding its own socket at its well-known path, while `serviceB` and
`serviceC` abort (`unwrap()` panics); only `serviceA` is dual-mode. -/
theorem startup_fallback_amended (v : Option (List Char))
    (h : init_get_fd v = Except.error ()) :
    serviceA_listener v = ListenerSource.selfBound "service_a_socket" ∧
    serviceB_listener v = ListenerSource.panicked ∧
    serviceC_listener v = ListenerSource.panicked := by
  simp [serviceA_listener, serviceB_listener, serviceC_listener, h]

/-- Witness for the amended C1 with the variable absent. -/
theorem startup_fallback_amended_witness :
    serviceA_listener none = ListenerSource.selfBound "service_a_socket" ∧
    serviceB_listener none = ListenerSource.panicked ∧
    serviceC_listener none = ListenerSource.panicked :=
  startup_fallback_amended none rfl

/-- C4: `spawn_service` forks; in the child it clears close-on-exec on
the socket, then clears non-blocking, then sets the descriptor number
into the environment under the reserved name, then execs the service's
binary with no arguments beyond its own program name — in that order; in
the parent it returns immediately without waiting (and a failed fork
panics). -/
theorem spawn_service_child_order (service : String) (socket : Int)
    (f : Nat) (pid : Nat) :
    spawn_service_trace ⟨.inChild, some f, true, true, true⟩ service socket =
      [.fcntlGetfd socket, .fcntlSetfd socket (clearCloexec f),
       .ioctlFionbio socket 0,
       .setEnvVar INIT_ENV_FORMAT (execEnvValue socket),
       .execveCall (progPath service) [some (progPath service), none]] ∧
    spawn_service_trace ⟨.inParent pid, some f, true, true, true⟩ service
      socket = [.parentReturn] ∧
    spawn_service_trace ⟨.failed, some f, true, true, true⟩ service socket =
      [.panicFork] := by
  refine ⟨?_, rfl, rfl⟩
  simp [spawn_service_trace, seqAbort, unset_cloexec_trace,
    unset_nonblocking_trace, exec_trace]

/-- C5 counterexample: with both `fcntl` calls succeeding but the
`ioctl(FIONBIO)` call reporting failure, the child neither aborts nor
stops: the trace still reaches the exec and contains no assert failure —
the non-blocking flag-manipulation failure is silently ignored. -/
theorem ioctl_failure_not_fatal :
    spawn_service_trace ⟨.inChild, some 1, true, false, true⟩ "serviceA" 5 =
      [.fcntlGetfd 5, .fcntlSetfd 5 0, .ioctlFionbio 5 0,
       .setEnvVar INIT_ENV_FORMAT ['5'],
       .execveCall "target/debug/serviceA"
         [some "target/debug/serviceA", none]] ∧
    Act.assertFail ∉
      spawn_service_trace ⟨.inChild, some 1, true, false, true⟩ "serviceA" 5 := by
  constructor <;> decide

/-- C5 (amended): on the spawn path the close-on-exec flag manipulation
failures are fatal — `F_GETFD` returning `-1` aborts before any further
action, and a failed `F_SETFD` aborts before the ioctl and the exec — but
the non-blocking `ioctl`'s return value is discarded, so its failure
never aborts and the child continues to exec regardless. -/
theorem flag_failure_fatality_amended (service : String) (socket : Int)
    (f : Nat) (b1 b2 : Bool) :
    spawn_service_trace ⟨.inChild, none, b1, b2, true⟩ service socket =
      [.fcntlGetfd socket, .assertFail] ∧
    spawn_service_trace ⟨.inChild, some f, false, b2, true⟩ service socket =
      [.fcntlGetfd socket, .fcntlSetfd socket (clearCloexec f),
       .assertFail] ∧
    spawn_service_trace ⟨.inChild, some f, true, false, true⟩ service socket =
      spawn_service_trace ⟨.inChild, some f, true, true, true⟩ service
        socket := by
  refine ⟨?_, ?_, rfl⟩
  · simp [spawn_service_trace, seqAbort, unset_cloexec_trace]
  · simp [spawn_service_trace, seqAbort, unset_cloexec_trace]

/-- C9: the flag word `unset_cloexec` writes back differs from the word
it read in exactly the `FD_CLOEXEC` bit — bit 0 is cleared, every other
bit is unchanged. -/
theorem clearCloexec_frame (flags i : Nat) (h : flags < 2 ^ 32) :
    (clearCloexec flags).testBit i =
      if i = 0 then false else flags.testBit i := by
  have hand : (clearCloexec flags).testBit i =
      (flags.testBit i && ((2 : Nat) * (2 ^ 31 - 1)).testBit i) := by
    unfold clearCloexec notFdCloexec32 FD_CLOEXEC
    rw [show (2 : Nat) ^ 32 - 1 - 1 = 2 * (2 ^ 31 - 1) from by norm_num,
      Nat.testBit_and]
  rw [hand]
  by_cases h0 : i = 0
  · subst h0
    simp [Nat.testBit_zero, Nat.mul_mod_right]
  · obtain ⟨j, rfl⟩ : ∃ j, i = j + 1 := ⟨i - 1, by omega⟩
    have hm : ((2 : Nat) * (2 ^ 31 - 1)).testBit (j + 1) = decide (j < 31) := by
      rw [Nat.testBit_add_one,
        show (2 : Nat) * (2 ^ 31 - 1) / 2 = 2 ^ 31 - 1 by norm_num,
        Nat.testBit_two_pow_sub_one]
    rw [hm, if_neg h0]
    by_cases hj : j < 31
    · simp [hj]
    · have hf : flags.testBit (j + 1) = false :=
        Nat.testBit_lt_two_pow
          (lt_of_lt_of_le h (Nat.pow_le_pow_right (by norm_num) (by omega)))
      simp [hj, hf]

/-- Witness for C9 at flag word 3: bit 0 is cleared, bit 1 survives. -/
theorem clearCloexec_frame_witness :
    (clearCloexec 3).testBit 0 = false ∧
    (clearCloexec 3).testBit 1 = (3 : Nat).testBit 1 := by
  constructor
  · have h := clearCloexec_frame 3 0 (by norm_num)
    simpa using h
  · have h := clearCloexec_frame 3 1 (by norm_num)
    simpa using h

/-- C10: `Worker::run` treats a partial write as success — after a
non-empty payload the loop continues if and only if the single unchecked
`write` returned `Ok`, regardless of the byte count it reports (even 0,
a fully truncated reply), and exactly one write is issued per payload
(no retry); a write `Err` terminates the loop. -/
theorem worker_partial_write (service : String) (n k j : Nat)
    (rest : List WStep) :
    workerRun service (⟨.ok (n + 1), some k⟩ :: rest) =
      workerRun service (⟨.ok (n + 1), some j⟩ :: rest) ∧
    (workerRun service (⟨.ok (n + 1), some k⟩ :: rest)).cause =
      (workerRun service rest).cause ∧
    (workerRun service (⟨.ok (n + 1), some 0⟩ :: rest)).writes =
      replyFor service :: (workerRun service rest).writes ∧
    (workerRun service (⟨.ok (n + 1), none⟩ :: rest)).cause =
      some Cause.writeErr :=
  ⟨rfl, rfl, rfl, rfl⟩

theorem workerRun_cause_none (service : String) (s : List WStep) :
    (workerRun service s).cause.isNone = s.all goodStep := by
  induction s with
  | nil => rfl
  | cons st rest ih =>
    obtain ⟨rd, wr⟩ := st
    cases rd with
    | err => simp [workerRun, goodStep]
    | ok m =>
      cases m with
      | zero => simp [workerRun, goodStep]
      | succ m' =>
        cases wr with
        | none => simp [workerRun, goodStep]
        | some k => simp [workerRun, goodStep, ih]

/-- C6: per-iteration contract of `Worker::run` — a zero-length read or a
read error terminates the loop with no reply and no callback (errors are
absorbed, the function returns normally); a non-empty payload invokes the
callback exactly once and then writes the `replyFor` reply, a failed
write terminating the loop; and the loop is still running after a script
exactly when every step of it was a non-empty read followed by a
successful write, so those three cases are the only exits. -/
theorem worker_run_contract (service : String) (w : Option Nat) (n : Nat)
    (rest script : List WStep) :
    workerRun service (⟨.ok 0, w⟩ :: rest) = ⟨0, [], some .zeroRead⟩ ∧
    workerRun service (⟨.err, w⟩ :: rest) = ⟨0, [], some .readErr⟩ ∧
    workerRun service (⟨.ok (n + 1), none⟩ :: rest) =
      ⟨1, [replyFor service], some .writeErr⟩ ∧
    (∀ k, workerRun service (⟨.ok (n + 1), some k⟩ :: rest) =
      ⟨(workerRun service rest).calls + 1,
       replyFor service :: (workerRun service rest).writes,
       (workerRun service rest).cause⟩) ∧
    (workerRun service script).cause.isNone = script.all goodStep :=
  ⟨rfl, rfl, rfl, fun _ => rfl, workerRun_cause_none service script⟩

theorem handleEvents_count (service : String) (evs : List Nat) :
    (handleEvents service evs).count WatchAction.register = 0 ∧
    (handleEvents service evs).count WatchAction.pollWait = 0 := by
  induction evs with
  | nil => simp [handleEvents]
  | cons t ts ih =>
    by_cases ht : t = LISTENER
    · simp [handleEvents, ht, List.count_cons, ih.1, ih.2]
    · simp [handleEvents, ht, List.count_cons]

/-- C7: the activation watcher is one-shot — it performs exactly one
readiness-poll registration and one blocking poll whatever events the
poll delivers, and when the single registered socket becomes readable
(the poll returns the one `LISTENER` event) the trace is exactly
register, wait, spawn: the service is spawned exactly once and the
watcher terminates without re-arming (nothing follows the spawn). -/
theorem service_spawner_one_shot (service : String) (events : List Nat) :
    service_spawner service [LISTENER] =
      [.register, .pollWait, .spawnSvc service] ∧
    (service_spawner service events).count WatchAction.register = 1 ∧
    (service_spawner service events).count WatchAction.pollWait = 1 := by
  refine ⟨rfl, ?_, ?_⟩
  · simp [service_spawner, List.count_cons, (handleEvents_count service events).1]
  · simp [service_spawner, List.count_cons, (handleEvents_count service events).2]

/-- C8: the registry populated by `parse` is a fixed value thereafter (no
operation writes to it), so lookup of each registered service name
returns the same socket path for the lifetime of the process, and
`start_service` on a name that was never registered aborts (the
`unwrap()` on the `None` lookup is fatal). -/
theorem registry_lookup_fixed (name : String) (connectOk : Bool) :
    mapGet parse "serviceA" = some "service_a_socket" ∧
    mapGet parse "serviceB" = some "service_b_socket" ∧
    mapGet parse "serviceC" = some "service_c_socket" ∧
    (name ≠ "serviceA" → name ≠ "serviceB" → name ≠ "serviceC" →
      start_service parse name connectOk = .aborted) := by
  refine ⟨rfl, rfl, rfl, ?_⟩
  intro h1 h2 h3
  have hnone : mapGet parse name = none := by
    simp [parse, mapInsert, mapGet, h1, h2, h3]
  simp [start_service, hnone]

/-- Witness for C8 at the unregistered name "ping". -/
theorem registry_lookup_fixed_witness :
    start_service parse "ping" true = StartOutcome.aborted :=
  (registry_lookup_fixed "ping" true).2.2.2 (by decide) (by decide)
    (by decide)
